import Mathlib

/-
A shallow embedding, in Lean 4, of the lifecycle and offline-catch-up engine
of src/js/main.js (Xianxia Idle V1.2.0, the canonical game version of this
repository).  JavaScript numbers are modelled as real numbers; the
`Number.isFinite` checks of the source are modelled by `jsFinite`, which
holds for reals below the IEEE double overflow threshold 2^1024, so that the
source's non-finite guards keep their branch structure.  Balance constants
are the defaults of the `BAL` object in main.js.  DOM rendering, modal
presentation, achievements, audio and localStorage persistence are external
collaborators and are not part of the state; wall-clock timestamp fields
(`lastTick`, `lastSave`, `lastDeathAt`, `lastReincarnateAt`) are write-only
in the source and are omitted, except the session snapshot's `lastTs`, which
offline replay consumes.  `Date.now()` at resume time is passed as an
explicit argument.  `Math.sqrt` is modelled by `Real.sqrt` (which is 0 on
negative inputs, hence the non-negativity hypotheses on `lifetimeQi` where
it matters).
-/

namespace Xianxia

noncomputable section

/-! ## JavaScript number model -/

/-- IEEE double overflow threshold: a real at or above this magnitude is an
overflowed (non-finite) JavaScript number in this model. -/
def jsMaxVal : ℝ := 2 ^ (1024 : ℕ)

/-- Model of `Number.isFinite` for values produced by real arithmetic. -/
def jsFinite (x : ℝ) : Prop := |x| < jsMaxVal

instance : DecidablePred jsFinite := fun x => Real.decidableLT (|x|) jsMaxVal

/-- `safeNum(v, d)` from main.js: a non-finite number is replaced by the
default. -/
def safeNum (v d : ℝ) : ℝ := if jsFinite v then v else d

/-! ## Balance configuration (the `BAL` defaults of main.js) -/

def balRealmBase : ℝ := 100
def balRealmBaseScale : ℝ := 25
def balStageScale : ℝ := 33 / 20
def lifetimeQiDivisor : ℝ := 1000
def realmKarmaFactor : ℝ := 2
def minKarma : ℝ := 1
def deathPenalty : ℝ := 1 / 2
def yearsPerSecond : ℝ := 1 / 100

/-- `BAL.lifespan.realmMaxLifespan`: years per realm, `none` models the
`null` sentinel (True Immortal) and any out-of-range index (`undefined`). -/
def realmMaxLifespan : ℕ → Option ℝ
  | 0 => some 100
  | 1 => some 200
  | 2 => some 500
  | 3 => some 1000
  | 4 => some 3000
  | 5 => some 10000
  | 6 => some 30000
  | 7 => some 100000
  | 8 => some 300000
  | _ => none

/-! ## Data model (the fields of `defaultState()` the engine reads) -/

@[ext]
structure Skills where
  breath_control : ℕ
  meridian_flow : ℕ
  lotus_meditation : ℕ
  dantian_temps : ℕ
  closed_door : ℕ
  deriving DecidableEq

@[ext]
structure Reinc where
  times : ℕ
  karma : ℝ
  lifetimeQi : ℝ

@[ext]
structure LifespanData where
  current : Option ℝ
  max : Option ℝ

@[ext]
structure TimeSpeed where
  current : ℝ
  paused : Bool

inductive Cycle where
  | mortal
  | spirit
  deriving DecidableEq

@[ext]
structure Flags where
  unlockedBeyondSpirit : Bool
  hasUnlockedSpiritCycle : Bool
  hasCompletedMandatoryST10 : Bool
  canManualReincarnate : Bool
  lifespanHandled : Bool
  deriving DecidableEq

@[ext]
structure Lifecycle where
  isReincarnating : Bool
  deriving DecidableEq

@[ext]
structure Stats where
  deaths : ℕ
  deriving DecidableEq

@[ext]
structure Meta where
  unlockedSpeeds : List ℝ

/-- The session snapshot written by `saveSessionSnapshot` and consumed once
by `applyOfflineProgressOnResume` (the analytics-only fields are omitted). -/
@[ext]
structure Session where
  lastTs : ℝ
  lastSpeed : ℝ

@[ext]
structure GameState where
  qi : ℝ
  qpcBase : ℝ
  qpsBase : ℝ
  qpcMult : ℝ
  qpsMult : ℝ
  realmIndex : ℕ
  stage : ℕ
  skills : Skills
  reinc : Reinc
  lifespan : LifespanData
  age : ℝ
  isDead : Bool
  timeSpeed : TimeSpeed
  currentCycle : Cycle
  flags : Flags
  lifecycle : Lifecycle
  stats : Stats
  meta : Meta
  session : Option Session

/-- `defaultState()` from main.js (timestamps omitted; `session` starts
absent). -/
def defaultState : GameState where
  qi := 0
  qpcBase := 1
  qpsBase := 0
  qpcMult := 1
  qpsMult := 1
  realmIndex := 0
  stage := 1
  skills := ⟨0, 0, 0, 0, 0⟩
  reinc := ⟨0, 0, 0⟩
  lifespan := ⟨some 100, some 100⟩
  age := 0
  isDead := false
  timeSpeed := ⟨1, false⟩
  currentCycle := Cycle.mortal
  flags := ⟨false, false, false, false, false⟩
  lifecycle := ⟨false⟩
  stats := ⟨0⟩
  meta := ⟨[0, 1 / 2, 1]⟩
  session := none

/-! ## Karma soft caps and cycle bonus (ProgressionMath) -/

/-- `karmaQiMult`: `1 + 1.2 * (1 - e^(-0.04 * karma))`. -/
def karmaQiMult (karma : ℝ) : ℝ := 1 + 1.2 * (1 - Real.exp (-0.04 * karma))

/-- `karmaLifeMult`: `1 + 1.5 * (1 - e^(-0.03 * karma))`. -/
def karmaLifeMult (karma : ℝ) : ℝ := 1 + 1.5 * (1 - Real.exp (-0.03 * karma))

/-- `karmaStageMult`: `1 + 0.6 * (1 - e^(-0.03 * karma))`. -/
def karmaStageMult (karma : ℝ) : ℝ := 1 + 0.6 * (1 - Real.exp (-0.03 * karma))

/-- `karmaStageBonus()`: the inverse soft cap multiplied onto stage
requirements. -/
def karmaStageBonus (karma : ℝ) : ℝ := 1.0 / karmaStageMult karma

/-- `cyclePowerMult(realmIndex)`: linear bonus within each cycle
(+20% per mortal realm, +40% per spirit realm, from the cycle's start). -/
def cyclePowerMult (realmIndex : ℕ) : ℝ :=
  if realmIndex ≤ 4 then 1 + 0.20 * realmIndex
  else if realmIndex ≤ 9 then 1 + 0.40 * (realmIndex - 5 : ℕ)
  else 1

/-- `stageRequirement(realmIndex, stage)` from main.js (with the state's
karma made an explicit argument): the base requirement is floored first,
then multiplied by the karma reduction and floored again. -/
def stageRequirement (realmIndex stage : ℕ) (karma : ℝ) : ℤ :=
  let realmBase : ℝ := balRealmBase * balRealmBaseScale ^ realmIndex
  let stageScale : ℝ := balStageScale ^ (stage - 1)
  let baseRequirement : ℤ := ⌊realmBase * stageScale⌋
  ⌊(baseRequirement : ℝ) * karmaStageBonus karma⌋

/-- The spec's words for `stageRequirement` (§4.1): a single floor applied
to the karma-divided quantity.  Defined for comparison with the source's
`stageRequirement`. -/
def specStageRequirement (realmIndex stage : ℕ) (karma : ℝ) : ℤ :=
  ⌊balRealmBase * balRealmBaseScale ^ realmIndex * balStageScale ^ (stage - 1) /
    karmaStageMult karma⌋

/-- `totalQPS()`: base + breathing-control levels, lotus multiplier, run
multiplier, karma soft cap, cycle bonus. -/
def totalQPS (s : GameState) : ℝ :=
  (s.qpsBase + s.skills.breath_control * 0.5) * (1 + s.skills.lotus_meditation * 0.15) *
    s.qpsMult * karmaQiMult s.reinc.karma * cyclePowerMult s.realmIndex

/-- `totalQPC()`: base + meridian-flow levels, dantian multiplier, run
multiplier, karma soft cap, cycle bonus. -/
def totalQPC (s : GameState) : ℝ :=
  (s.qpcBase + s.skills.meridian_flow * 1) * (1 + s.skills.dantian_temps * 0.10) *
    s.qpcMult * karmaQiMult s.reinc.karma * cyclePowerMult s.realmIndex

/-- `totalOfflineMult()`: 1 + 20% per closed-door-cultivation level. -/
def totalOfflineMult (s : GameState) : ℝ := 1 + s.skills.closed_door * 0.20

/-- `getMaxLifespan(realmIndex)` (karma explicit): the per-realm table value
scaled by the lifespan soft cap and floored; `none` for the infinite
sentinel. -/
def getMaxLifespan (realmIndex : ℕ) (karma : ℝ) : Option ℝ :=
  match realmMaxLifespan realmIndex with
  | none => none
  | some base => some (⌊base * karmaLifeMult karma⌋ : ℤ)

/-- `isImmortal()`. -/
def isImmortal (s : GameState) : Prop :=
  getMaxLifespan s.realmIndex s.reinc.karma = none

instance (s : GameState) : Decidable (isImmortal s) := by
  unfold isImmortal; infer_instance

/-- `getTimeSpeed()`: 0 when paused, else the current multiplier. -/
def getTimeSpeed (s : GameState) : ℝ :=
  if s.timeSpeed.paused then 0 else s.timeSpeed.current

/-- `safeAddQi(x)`: ignore non-finite or non-positive gains, clamp Qi into
`[0, 1e300]`. -/
def safeAddQi (x : ℝ) (s : GameState) : GameState :=
  if jsFinite x ∧ 0 < x then
    { s with qi := max 0 (min (s.qi + x) (10 ^ (300 : ℕ) : ℝ)) }
  else s

/-! ## Lifecycle state machine -/

/-- `computeKarmaGain()`: `max(minKarma, (floor(sqrt(lifetimeQi / divisor))
+ realmIndex * realmKarmaFactor) * cycleMultiplier)`, the spirit cycle
doubling the gain. -/
def computeKarmaGain (s : GameState) : ℝ :=
  let safeLifetimeQi := safeNum s.reinc.lifetimeQi 0
  let base : ℝ := (⌊Real.sqrt (safeLifetimeQi / lifetimeQiDivisor)⌋ : ℤ)
  let realmBonus : ℝ := s.realmIndex * realmKarmaFactor
  let cycleMultiplier : ℝ := if s.currentCycle = Cycle.spirit then 2 else 1
  max minKarma ((base + realmBonus) * cycleMultiplier)

/-- `computeVoluntaryKarma()`. -/
def computeVoluntaryKarma (s : GameState) : ℝ := max minKarma (computeKarmaGain s)

/-- `computeDeathKarma()`: half gain, floored, at least `minKarma`. -/
def computeDeathKarma (s : GameState) : ℝ :=
  max minKarma (⌊computeKarmaGain s * deathPenalty⌋ : ℤ)

/-- The claim's reading of the base karma formula (minKarma floor applied
before the cycle multiplier), for comparison with `computeKarmaGain`. -/
def specKarmaGain (s : GameState) : ℝ :=
  let base : ℝ := (⌊Real.sqrt (safeNum s.reinc.lifetimeQi 0 / lifetimeQiDivisor)⌋ : ℤ)
  let realmBonus : ℝ := s.realmIndex * realmKarmaFactor
  let cycleMultiplier : ℝ := if s.currentCycle = Cycle.spirit then 2 else 1
  max minKarma (base + realmBonus) * cycleMultiplier

/-- `updateCurrentCycle()` (with the default cycle realm bands 0–4 / 5–9). -/
def updateCurrentCycle (s : GameState) : GameState :=
  if s.realmIndex ≤ 4 then { s with currentCycle := Cycle.mortal }
  else if s.realmIndex ≤ 9 then { s with currentCycle := Cycle.spirit }
  else s

/-- The reincarnation mode strings of `doReincarnate`. -/
inductive RMode where
  | voluntary
  | death
  | mandatory
  deriving DecidableEq

/-- `doReincarnate(options)`: compute the mode's karma gain, hard-reset to
`defaultState` keeping `reinc`/`flags`/`meta` (note: NOT `stats`), handle
the mandatory-ST10 unlock flags, re-derive the fresh lifespan from the new
karma, and clear the guard.  The transient guard set/clear and the modal
presentation have no net state effect and are not represented. -/
def doReincarnate (mode : RMode) (s : GameState) : GameState :=
  let gain := if mode = RMode.death then computeDeathKarma s else computeVoluntaryKarma s
  let wasAtST10 := s.realmIndex = 4 ∧ s.stage = 10
  let newKarma := s.reinc.karma + gain
  let newTimes := s.reinc.times + 1
  let base := { defaultState with
    reinc := ⟨newTimes, newKarma, 0⟩, flags := s.flags, meta := s.meta }
  let s2 := if mode = RMode.mandatory ∧ wasAtST10 then
      { base with flags := { base.flags with
          hasCompletedMandatoryST10 := true, hasUnlockedSpiritCycle := true,
          canManualReincarnate := true, unlockedBeyondSpirit := true } }
    else base
  let s3 := if mode = RMode.death then { s2 with stats := ⟨s2.stats.deaths + 1⟩ } else s2
  let s4 := { s3 with
    age := 0, isDead := false, flags := { s3.flags with lifespanHandled := false } }
  let s5 := match getMaxLifespan 0 newKarma with
    | none => { s4 with lifespan := ⟨none, none⟩ }
    | some v => { s4 with lifespan := ⟨some (safeNum v 100), some (safeNum v 100)⟩ }
  let s6 := { s5 with realmIndex := 0, stage := 1, currentCycle := Cycle.mortal }
  let s7 := updateCurrentCycle s6
  { s7 with lifecycle := ⟨false⟩, timeSpeed := { s7.timeSpeed with paused := false } }

/-- `performDeathReincarnation(karmaGain)`: hard reset that preserves
`flags`, `stats` (deaths incremented), `meta` and karma (times NOT
incremented). -/
def performDeathReincarnation (karmaGain : ℝ) (s : GameState) : GameState :=
  let deaths1 := s.stats.deaths + 1
  let newKarma := s.reinc.karma + karmaGain
  let newTimes := s.reinc.times
  let keepFlags := { s.flags with lifespanHandled := false }
  let base := { defaultState with
    flags := keepFlags, stats := ⟨deaths1⟩, reinc := ⟨newTimes, newKarma, 0⟩,
    meta := s.meta, age := 0, isDead := false, timeSpeed := ⟨1, false⟩,
    lifecycle := ⟨false⟩ }
  match getMaxLifespan 0 newKarma with
  | none => { base with lifespan := ⟨none, none⟩ }
  | some v => { base with lifespan := ⟨some (safeNum v 100), some (safeNum v 100)⟩ }

/-- The synchronous prefix of the async `handleLifespanEnd()`: debounce
check, then mark dead, set the reincarnation guard and pause time.  The
awaited modal and the subsequent `performDeathReincarnation` happen later
(see `deathTransition`). -/
def handleLifespanEnd (s : GameState) : GameState :=
  if s.lifecycle.isReincarnating ∨ s.isDead then s
  else { s with isDead := true, lifecycle := ⟨true⟩, timeSpeed := ⟨0, true⟩ }

/-- The complete death flow of `handleLifespanEnd()`: the death karma is
computed before the modal is awaited, and `performDeathReincarnation` runs
once the modal is dismissed. -/
def deathTransition (s : GameState) : GameState :=
  if s.lifecycle.isReincarnating ∨ s.isDead then s
  else
    let s1 := { s with isDead := true, lifecycle := ⟨true⟩, timeSpeed := ⟨0, true⟩ }
    performDeathReincarnation (computeDeathKarma s1) s1

/-- `checkLifespanGate()`: fire the death handler once when age has reached
the (karma-scaled) ceiling, latched by `lifespanHandled`. -/
def checkLifespanGate (s : GameState) : GameState :=
  if isImmortal s then s
  else if s.flags.lifespanHandled ∨ s.lifecycle.isReincarnating then s
  else match getMaxLifespan s.realmIndex s.reinc.karma with
    | none => s
    | some m =>
      if m ≤ s.age then
        handleLifespanEnd { s with flags := { s.flags with lifespanHandled := true } }
      else s

/-- `tickLifespan(dt)`: the aging engine.  Guards (paused / dead / immortal
/ transitioning / non-positive speed or dt), the non-finite age guards, the
clamp into `[0, maxLifespan]`, the legacy `lifespan.current` mirror, and
the latched death check. -/
def tickLifespan (dt : ℝ) (s : GameState) : GameState :=
  if s.timeSpeed.paused ∨ s.isDead then s
  else if isImmortal s then s
  else if s.lifecycle.isReincarnating then s
  else if s.timeSpeed.current ≤ 0 then s
  else
    let safeDt := max 0 dt
    if safeDt = 0 then s
    else
      let agingRate := safeDt * s.timeSpeed.current * yearsPerSecond
      let age0 := if jsFinite s.age then s.age else 0
      let newAge := age0 + agingRate
      if ¬ jsFinite newAge then { s with age := age0 }
      else
        match getMaxLifespan s.realmIndex s.reinc.karma with
        | none =>
          { s with age := max 0 newAge }
        | some m =>
          let a := max 0 (min newAge m)
          let s1 := { s with age := a }
          let s2 := match s1.lifespan.max with
            | none => s1
            | some mx => { s1 with lifespan := { s1.lifespan with
                current := some (max 0 (mx - a)) } }
          if m ≤ a ∧ s2.flags.lifespanHandled = false then
            handleLifespanEnd { s2 with flags := { s2.flags with lifespanHandled := true } }
          else s2

/-- `tick(dt)`: the main tick entrypoint — speed and reentrancy guards, Qi
production over the effective elapsed time, lifetime-Qi accounting, aging,
and the lifespan gate check. -/
def tick (dt : ℝ) (s : GameState) : GameState :=
  let timeSpeed := getTimeSpeed s
  if timeSpeed = 0 then s
  else if s.lifecycle.isReincarnating then s
  else
    let effDt := dt * timeSpeed
    let gain := totalQPS s * effDt
    let s1 := safeAddQi gain s
    let s2 := { s1 with reinc := { s1.reinc with
      lifetimeQi := safeNum (s1.reinc.lifetimeQi + gain) 0 } }
    let s3 := tickLifespan dt s2
    checkLifespanGate s3

/-- `onClick()`: one click's production (guarded like `tick`). -/
def onClick (s : GameState) : GameState :=
  let timeSpeed := getTimeSpeed s
  if timeSpeed = 0 then s
  else if s.lifecycle.isReincarnating then s
  else
    let gain := totalQPC s * timeSpeed
    let s1 := safeAddQi gain s
    { s1 with reinc := { s1.reinc with
      lifetimeQi := safeNum (s1.reinc.lifetimeQi + gain) 0 } }

/-- One completed lifecycle transition, by entry mode: `doReincarnate`
(voluntary / mandatory / legacy death branch) or the async death flow. -/
inductive TransitionKind where
  | viaReincarnate (mode : RMode)
  | viaDeath

def applyTransition (t : TransitionKind) (s : GameState) : GameState :=
  match t with
  | TransitionKind.viaReincarnate mode => doReincarnate mode s
  | TransitionKind.viaDeath => deathTransition s

def applyTransitionList (l : List TransitionKind) (s : GameState) : GameState :=
  l.foldl (fun st t => applyTransition t st) s

/-! ## Breakthrough -/

/-- `isAtCycleEnd()`. -/
def isAtCycleEnd (s : GameState) : Prop :=
  if s.currentCycle = Cycle.mortal then
    s.realmIndex = 4 ∧ s.stage = 10 ∧ s.flags.unlockedBeyondSpirit = false
  else s.realmIndex = 9 ∧ s.stage = 10

instance (s : GameState) : Decidable (isAtCycleEnd s) := by
  unfold isAtCycleEnd; infer_instance

/-- `updateLifespanOnRealmAdvance()`. -/
def updateLifespanOnRealmAdvance (s : GameState) : GameState :=
  let s1 := match getMaxLifespan s.realmIndex s.reinc.karma with
    | none => { s with lifespan := ⟨none, none⟩, age := 0 }
    | some m => { s with lifespan := ⟨some m, some m⟩, age := 0 }
  { s1 with flags := { s1.flags with lifespanHandled := false } }

/-- One step of `checkAndUnlockSpeeds()`'s unlock loop. -/
def unlockStep (realmIndex : ℕ) (l : List ℝ) (p : ℝ × ℕ) : List ℝ :=
  if p.1 = 0 ∨ p.1 = 1 / 2 ∨ p.1 = 1 then l
  else if p.2 ≤ realmIndex ∧ p.1 ∉ l then l ++ [p.1] else l

/-- `checkAndUnlockSpeeds()`: ensure the base speeds are present, then
unlock the realm-gated speeds of `BAL.timeSpeed`. -/
def checkAndUnlockSpeeds (s : GameState) : GameState :=
  let l0 := s.meta.unlockedSpeeds
  let l1 := if (0 : ℝ) ∈ l0 then l0 else l0 ++ [0]
  let l2 := if (1 / 2 : ℝ) ∈ l1 then l1 else l1 ++ [1 / 2]
  let l3 := if (1 : ℝ) ∈ l2 then l2 else l2 ++ [1]
  let pairs : List (ℝ × ℕ) := [(0, 0), (1, 0), (2, 2), (4, 4), (6, 6), (8, 8), (10, 9)]
  { s with meta := ⟨pairs.foldl (unlockStep s.realmIndex) l3⟩ }

/-- `doBreakthrough()`: spend the stage requirement; advance the stage, or
at stage 10 either open the Spirit Transformation gate modal (no further
state change), open a cycle-completion modal, or advance the realm. -/
def doBreakthrough (s : GameState) : GameState :=
  let req : ℝ := (stageRequirement s.realmIndex s.stage s.reinc.karma : ℤ)
  if s.qi < req then s
  else
    let s1 := { s with qi := s.qi - req }
    if s1.stage < 10 then { s1 with stage := s1.stage + 1 }
    else if s1.realmIndex = 4 ∧ s1.flags.unlockedBeyondSpirit = false then s1
    else if isAtCycleEnd s1 then s1
    else if s1.realmIndex < 9 then
      let s2 := { s1 with
        realmIndex := s1.realmIndex + 1, stage := 1,
        qpcBase := s1.qpcBase + 1, qpsBase := s1.qpsBase + 1 / 2 }
      let s3 := updateLifespanOnRealmAdvance s2
      let s4 := updateCurrentCycle s3
      checkAndUnlockSpeeds s4
    else s1

/-! ## Offline replay -/

/-- The body of `applyOfflineProgressOnResume` from the point where the
elapsed whole seconds are known: the 12-hour cap, one lump Qi gain (with
the offline multiplier), one lump age advance with the same clamping as the
aging engine, unconditional snapshot clearing, and the routed death check
when the lifespan was exceeded. -/
def applyOfflineAfterElapsed (elapsedSec : ℤ) (sess : Session) (s : GameState) : GameState :=
  if elapsedSec < 1 then { s with session := none }
  else
    let cappedSec : ℤ := min elapsedSec (12 * 3600)
    let effectiveTime : ℝ := (cappedSec : ℤ) * sess.lastSpeed
    let yearsPassed := effectiveTime * yearsPerSecond
    let qiGains := totalQPS s * effectiveTime * totalOfflineMult s
    let s1 := if 0 < qiGains then
        let sa := safeAddQi qiGains s
        { sa with reinc := { sa.reinc with
          lifetimeQi := safeNum (sa.reinc.lifetimeQi + qiGains) 0 } }
      else s
    let age0 := if jsFinite s1.age then s1.age else 0
    let p : GameState × Bool :=
      if isImmortal s1 then ({ s1 with age := age0 }, false)
      else match s1.lifespan.max with
        | some mx =>
          let newAge := age0 + yearsPassed
          if ¬ jsFinite newAge then ({ s1 with age := age0 }, false)
          else
            let a := max 0 (min newAge mx)
            (({ s1 with age := a, lifespan := { s1.lifespan with
                current := some (max 0 (mx - a)) } }),
              if mx ≤ a then true else false)
        | none => ({ s1 with age := age0 + yearsPassed }, false)
    let s2 := { p.1 with session := none }
    if p.2 then checkLifespanGate s2 else s2

/-- `applyOfflineProgressOnResume()`:  `nowMs` is `Date.now()` at resume.
Snapshot and pause checks, then the elapsed-seconds computation feeding
`applyOfflineAfterElapsed`. -/
def applyOfflineProgressOnResume (nowMs : ℝ) (s : GameState) : GameState :=
  match s.session with
  | none => { s with session := none }
  | some sess =>
    if sess.lastTs = 0 then { s with session := none }
    else if sess.lastSpeed ≤ 0 then { s with session := none }
    else
      let elapsedMs := nowMs - sess.lastTs
      let elapsedSec : ℤ := max 0 ⌊elapsedMs / 1000⌋
      applyOfflineAfterElapsed elapsedSec sess s

/-! ## Basic evaluation lemmas -/

theorem jsFinite_def (x : ℝ) : jsFinite x ↔ |x| < jsMaxVal := Iff.rfl

theorem jsMaxVal_pos : (0 : ℝ) < jsMaxVal := by
  unfold jsMaxVal
  positivity

theorem big_lt_jsMaxVal : (10 : ℝ) ^ (301 : ℕ) < jsMaxVal := by
  unfold jsMaxVal
  norm_num

theorem jsFinite_of_bounds {x : ℝ} (h1 : -(10 ^ (301 : ℕ)) ≤ x) (h2 : x ≤ 10 ^ (301 : ℕ)) :
    jsFinite x := by
  rw [jsFinite_def, abs_lt]
  constructor
  · linarith [big_lt_jsMaxVal]
  · linarith [big_lt_jsMaxVal]

theorem safeNum_finite {v : ℝ} (d : ℝ) (h : jsFinite v) : safeNum v d = v := if_pos h

theorem safeAddQi_nonpos {x : ℝ} (s : GameState) (h : x ≤ 0) : safeAddQi x s = s := by
  unfold safeAddQi
  rw [if_neg]
  rintro ⟨-, hx⟩
  linarith

theorem safeAddQi_pos {x : ℝ} (s : GameState) (hfin : jsFinite x) (hx : 0 < x) :
    safeAddQi x s = { s with qi := max 0 (min (s.qi + x) (10 ^ (300 : ℕ) : ℝ)) } :=
  if_pos ⟨hfin, hx⟩

theorem karmaQiMult_zero : karmaQiMult 0 = 1 := by
  unfold karmaQiMult
  rw [show (-0.04 : ℝ) * 0 = 0 by ring, Real.exp_zero]
  ring

theorem karmaLifeMult_zero : karmaLifeMult 0 = 1 := by
  unfold karmaLifeMult
  rw [show (-0.03 : ℝ) * 0 = 0 by ring, Real.exp_zero]
  ring

theorem karmaStageMult_zero : karmaStageMult 0 = 1 := by
  unfold karmaStageMult
  rw [show (-0.03 : ℝ) * 0 = 0 by ring, Real.exp_zero]
  ring

theorem karmaLifeMult_le (karma : ℝ) : karmaLifeMult karma ≤ 5 / 2 := by
  unfold karmaLifeMult
  have := Real.exp_pos (-0.03 * karma)
  nlinarith

theorem karmaLifeMult_one_le {karma : ℝ} (h : 0 ≤ karma) : 1 ≤ karmaLifeMult karma := by
  unfold karmaLifeMult
  have : Real.exp (-0.03 * karma) ≤ 1 := by
    rw [Real.exp_le_one_iff]
    nlinarith
  nlinarith

theorem realmMaxLifespan_mem {i : ℕ} {b : ℝ} (h : realmMaxLifespan i = some b) :
    0 < b ∧ b ≤ 300000 := by
  unfold realmMaxLifespan at h
  split at h <;>
    first
      | (rw [Option.some_inj] at h; rw [← h]; norm_num)
      | exact absurd h (by simp)

theorem getMaxLifespan_le {i : ℕ} {karma M : ℝ}
    (h : getMaxLifespan i karma = some M) : M ≤ 750000 := by
  unfold getMaxLifespan at h
  cases hb : realmMaxLifespan i with
  | none => rw [hb] at h; exact absurd h (by simp)
  | some b =>
    rw [hb] at h
    obtain ⟨hb0, hb3⟩ := realmMaxLifespan_mem hb
    have hM : M = (⌊b * karmaLifeMult karma⌋ : ℤ) := by
      simpa using h.symm
    have h1 : (⌊b * karmaLifeMult karma⌋ : ℝ) ≤ b * karmaLifeMult karma := Int.floor_le _
    have h2 : b * karmaLifeMult karma ≤ 300000 * (5 / 2) := by
      have := karmaLifeMult_le karma
      have hkl : 0 ≤ karmaLifeMult karma ∨ karmaLifeMult karma < 0 := le_or_lt 0 _
      rcases hkl with hkl | hkl
      · nlinarith
      · nlinarith
    rw [hM]
    linarith

theorem getMaxLifespan_nonneg {i : ℕ} {karma M : ℝ} (hk : 0 ≤ karma)
    (h : getMaxLifespan i karma = some M) : 0 ≤ M := by
  unfold getMaxLifespan at h
  cases hb : realmMaxLifespan i with
  | none => rw [hb] at h; exact absurd h (by simp)
  | some b =>
    rw [hb] at h
    obtain ⟨hb0, -⟩ := realmMaxLifespan_mem hb
    have hM : M = (⌊b * karmaLifeMult karma⌋ : ℤ) := by simpa using h.symm
    have h1 : 1 ≤ karmaLifeMult karma := karmaLifeMult_one_le hk
    have h2 : (0 : ℝ) ≤ b * karmaLifeMult karma := by nlinarith
    rw [hM]
    have := Int.floor_nonneg.mpr h2
    exact_mod_cast this

/-! ## Claim C6: soft-cap shape -/

/-- Claim C6: for all karma ≥ 0 the three soft-cap functions `karmaQiMult`,
`karmaLifeMult` and `karmaStageMult` are strictly increasing in karma,
bounded above by one plus their amplitude (2.2, 2.5 and 1.6 respectively),
and each equals exactly 1 at karma = 0. -/
theorem softcaps_increasing_bounded_one_at_zero (k₁ k₂ : ℝ) (_h0 : 0 ≤ k₁) (h : k₁ < k₂) :
    (karmaQiMult k₁ < karmaQiMult k₂ ∧ karmaLifeMult k₁ < karmaLifeMult k₂ ∧
      karmaStageMult k₁ < karmaStageMult k₂) ∧
    (karmaQiMult k₁ ≤ 2.2 ∧ karmaLifeMult k₁ ≤ 2.5 ∧ karmaStageMult k₁ ≤ 1.6) ∧
    (karmaQiMult 0 = 1 ∧ karmaLifeMult 0 = 1 ∧ karmaStageMult 0 = 1) := by
  have e4 : Real.exp (-0.04 * k₂) < Real.exp (-0.04 * k₁) := by
    apply Real.exp_lt_exp.mpr
    nlinarith
  have e3 : Real.exp (-0.03 * k₂) < Real.exp (-0.03 * k₁) := by
    apply Real.exp_lt_exp.mpr
    nlinarith
  have p4 := Real.exp_pos (-0.04 * k₁)
  have p3 := Real.exp_pos (-0.03 * k₁)
  refine ⟨⟨?_, ?_, ?_⟩, ⟨?_, ?_, ?_⟩,
    karmaQiMult_zero, karmaLifeMult_zero, karmaStageMult_zero⟩ <;>
    simp only [karmaQiMult, karmaLifeMult, karmaStageMult] <;> nlinarith

/-- Witness for C6 at karma values 0 and 1. -/
theorem softcaps_witness :
    (karmaQiMult 0 < karmaQiMult 1 ∧ karmaLifeMult 0 < karmaLifeMult 1 ∧
      karmaStageMult 0 < karmaStageMult 1) ∧
    (karmaQiMult 0 ≤ 2.2 ∧ karmaLifeMult 0 ≤ 2.5 ∧ karmaStageMult 0 ≤ 1.6) ∧
    (karmaQiMult 0 = 1 ∧ karmaLifeMult 0 = 1 ∧ karmaStageMult 0 = 1) :=
  softcaps_increasing_bounded_one_at_zero 0 1 (by norm_num) (by norm_num)

/-! ## Claim C2: karma gain formula -/

/-- The counterexample state for C2: a fresh run (lifetimeQi = 0,
realmIndex = 0) whose `currentCycle` field reads `spirit`. -/
def stateC2 : GameState := { defaultState with currentCycle := Cycle.spirit }

/-- Counterexample for C2: with lifetimeQi = 0, realmIndex = 0 and the
spirit cycle, the code computes `max(1, (0 + 0) * 2) = 1`, while the
claim's formula `max(1, 0 + 0) * 2` yields 2: the minKarma floor is applied
after the cycle multiplier, not before. -/
theorem computeKarmaGain_formula_counterexample :
    computeKarmaGain stateC2 = 1 ∧ specKarmaGain stateC2 = 2 ∧
      computeKarmaGain stateC2 ≠ specKarmaGain stateC2 := by
  have hfin : jsFinite (0 : ℝ) := jsFinite_of_bounds (by norm_num) (by norm_num)
  have h1 : computeKarmaGain stateC2 = 1 := by
    unfold computeKarmaGain stateC2 defaultState
    simp only [safeNum_finite _ hfin]
    norm_num [lifetimeQiDivisor, realmKarmaFactor, minKarma, Real.sqrt_zero]
  have h2 : specKarmaGain stateC2 = 2 := by
    unfold specKarmaGain stateC2 defaultState
    simp only [safeNum_finite _ hfin]
    norm_num [lifetimeQiDivisor, realmKarmaFactor, minKarma, Real.sqrt_zero]
  refine ⟨h1, h2, ?_⟩
  rw [h1, h2]
  norm_num

/-- Claim C2 (amended): the karma gain equals
`max(minKarma, (floor(sqrt(lifetimeQi / divisor)) + realmIndex *
realmKarmaFactor) * cycleKarmaMultiplier)` — the cycle multiplier is
applied before the minKarma floor. -/
theorem computeKarmaGain_formula (s : GameState) (_h0 : 0 ≤ s.reinc.lifetimeQi)
    (hfin : jsFinite s.reinc.lifetimeQi) :
    computeKarmaGain s =
      max minKarma
        (((⌊Real.sqrt (s.reinc.lifetimeQi / lifetimeQiDivisor)⌋ : ℤ) +
            s.realmIndex * realmKarmaFactor) *
          (if s.currentCycle = Cycle.spirit then 2 else 1)) := by
  unfold computeKarmaGain
  rw [safeNum_finite _ hfin]

/-- Witness for C2 at the default (fresh) state. -/
theorem computeKarmaGain_formula_witness :
    computeKarmaGain defaultState =
      max minKarma
        (((⌊Real.sqrt (defaultState.reinc.lifetimeQi / lifetimeQiDivisor)⌋ : ℤ) +
            defaultState.realmIndex * realmKarmaFactor) *
          (if defaultState.currentCycle = Cycle.spirit then 2 else 1)) :=
  computeKarmaGain_formula defaultState (by norm_num [defaultState])
    (by exact jsFinite_of_bounds (by norm_num [defaultState]) (by norm_num [defaultState]))

/-! ## Claim C4: stage requirement formula -/

/-- Rational bounds for `e^(3/50)`, from the Taylor-series bounds in
Mathlib. -/
theorem exp_three_fiftieths_bounds :
    (5309 : ℝ) / 5000 ≤ Real.exp (3 / 50) ∧ Real.exp (3 / 50) ≤ 132731 / 125000 := by
  constructor
  · have h := @Real.quadratic_le_exp_of_nonneg (3 / 50) (by norm_num)
    nlinarith
  · have h := @Real.exp_bound' (3 / 50) (by norm_num) (by norm_num) 3 (by norm_num)
    have hs : (∑ m ∈ Finset.range 3, ((3 : ℝ) / 50) ^ m / m.factorial) =
        1 + 3 / 50 + (3 / 50) ^ 2 / 2 := by
      rw [Finset.sum_range_succ, Finset.sum_range_succ, Finset.sum_range_succ,
        Finset.sum_range_zero]
      norm_num [Nat.factorial]
    rw [hs] at h
    norm_num [Nat.factorial] at h
    nlinarith

/-- Helper: `stageRequirement` written as a floored division of the
already-floored base requirement. -/
theorem stageRequirement_div (realmIndex stage : ℕ) (karma : ℝ) :
    stageRequirement realmIndex stage karma =
      ⌊((⌊balRealmBase * balRealmBaseScale ^ realmIndex *
          balStageScale ^ (stage - 1)⌋ : ℤ) : ℝ) / karmaStageMult karma⌋ := by
  show ⌊((⌊balRealmBase * balRealmBaseScale ^ realmIndex *
      balStageScale ^ (stage - 1)⌋ : ℤ) : ℝ) * (1.0 / karmaStageMult karma)⌋ = _
  rw [show (1.0 : ℝ) = 1 by norm_num, mul_one_div]

/-- Helper: bounds on `karmaStageMult 2`, tight enough to separate the two
floors of the counterexample. -/
theorem karmaStageMult_two_bounds :
    (5173537 : ℝ) / 5000000 ≤ karmaStageMult 2 ∧
      karmaStageMult 2 ≤ (27473 : ℝ) / 26545 := by
  obtain ⟨hlo, hhi⟩ := exp_three_fiftieths_bounds
  have hpos : (0 : ℝ) < Real.exp (3 / 50) := Real.exp_pos _
  have hK : karmaStageMult 2 = 1 + 0.6 * (1 - (Real.exp (3 / 50))⁻¹) := by
    unfold karmaStageMult
    rw [show (-0.03 : ℝ) * 2 = -(3 / 50) by norm_num, Real.exp_neg]
  have hu1 : ((132731 : ℝ) / 125000)⁻¹ ≤ (Real.exp (3 / 50))⁻¹ :=
    inv_anti₀ hpos hhi
  have hu2 : (Real.exp (3 / 50))⁻¹ ≤ ((5309 : ℝ) / 5000)⁻¹ :=
    inv_anti₀ (by norm_num) hlo
  rw [inv_div] at hu1 hu2
  constructor
  · rw [hK]; nlinarith
  · rw [hK]; nlinarith

/-- Counterexample for C4: at realmIndex 0, stage 3, karma 2 the code
returns `floor(floor(272.25) / karmaStageMult 2) = 262`, while the claim's
single floor yields `floor(272.25 / karmaStageMult 2) = 263`. -/
theorem stageRequirement_single_floor_counterexample :
    stageRequirement 0 3 2 = 262 ∧ specStageRequirement 0 3 2 = 263 ∧
      stageRequirement 0 3 2 ≠ specStageRequirement 0 3 2 := by
  obtain ⟨hm1, hm2⟩ := karmaStageMult_two_bounds
  have hmpos : (0 : ℝ) < karmaStageMult 2 := by nlinarith
  have hbase : (⌊balRealmBase * balRealmBaseScale ^ (0 : ℕ) *
      balStageScale ^ (3 - 1 : ℕ)⌋ : ℤ) = 272 := by
    have : balRealmBase * balRealmBaseScale ^ (0 : ℕ) *
        balStageScale ^ (3 - 1 : ℕ) = (1089 : ℝ) / 4 := by
      unfold balRealmBase balRealmBaseScale balStageScale
      norm_num
    rw [this, Int.floor_eq_iff]
    norm_num
  have hcode : stageRequirement 0 3 2 = 262 := by
    rw [stageRequirement_div, hbase, Int.floor_eq_iff]
    push_cast
    rw [le_div_iff₀ hmpos, div_lt_iff₀ hmpos]
    constructor <;> nlinarith
  have hspec : specStageRequirement 0 3 2 = 263 := by
    unfold specStageRequirement
    have : balRealmBase * balRealmBaseScale ^ (0 : ℕ) *
        balStageScale ^ (3 - 1 : ℕ) = (1089 : ℝ) / 4 := by
      unfold balRealmBase balRealmBaseScale balStageScale
      norm_num
    rw [this, Int.floor_eq_iff]
    push_cast
    rw [le_div_iff₀ hmpos, div_lt_iff₀ hmpos]
    constructor <;> nlinarith
  exact ⟨hcode, hspec, by rw [hcode, hspec]; norm_num⟩

/-- Claim C4 (amended): `stageRequirement` applies two floors: the base
requirement `realmBase * realmBaseScale^realmIndex * stageScale^(stage-1)`
is floored first, and the result of dividing it by `karmaStageMult(karma)`
is floored again. -/
theorem stageRequirement_double_floor (realmIndex stage : ℕ) (karma : ℝ) :
    stageRequirement realmIndex stage karma =
      ⌊((⌊balRealmBase * balRealmBaseScale ^ realmIndex *
          balStageScale ^ (stage - 1)⌋ : ℤ) : ℝ) / karmaStageMult karma⌋ :=
  stageRequirement_div realmIndex stage karma

/-! ## Claims C7 and C5: transition counters and karma monotonicity -/

/-- Helper: the `reinc` record after `doReincarnate`. -/
theorem doReincarnate_reinc (mode : RMode) (s : GameState) :
    (doReincarnate mode s).reinc =
      ⟨s.reinc.times + 1,
        s.reinc.karma +
          (if mode = RMode.death then computeDeathKarma s else computeVoluntaryKarma s),
        0⟩ := by
  unfold doReincarnate updateCurrentCycle
  cases mode <;> simp
  all_goals split <;> (first | rfl | (split_ifs <;> rfl))

/-- Helper: the deaths counter after `doReincarnate` (reset by the hard
state reset; only the deprecated death branch re-adds one). -/
theorem doReincarnate_deaths (mode : RMode) (s : GameState) :
    (doReincarnate mode s).stats.deaths = if mode = RMode.death then 1 else 0 := by
  unfold doReincarnate updateCurrentCycle
  cases mode <;> simp [defaultState]
  all_goals split <;> (first | rfl | (split_ifs <;> rfl))

/-- Helper: the `reinc` record after `performDeathReincarnation`. -/
theorem performDeathReincarnation_reinc (g : ℝ) (s : GameState) :
    (performDeathReincarnation g s).reinc = ⟨s.reinc.times, s.reinc.karma + g, 0⟩ := by
  unfold performDeathReincarnation
  cases hml : getMaxLifespan 0 (s.reinc.karma + g) with
  | none => simp [hml]
  | some v => simp [hml]

/-- Helper: the deaths counter after `performDeathReincarnation`. -/
theorem performDeathReincarnation_deaths (g : ℝ) (s : GameState) :
    (performDeathReincarnation g s).stats.deaths = s.stats.deaths + 1 := by
  unfold performDeathReincarnation
  cases hml : getMaxLifespan 0 (s.reinc.karma + g) with
  | none => simp [hml]
  | some v => simp [hml]

/-- Helper: every karma gain is at least `minKarma = 1`. -/
theorem computeVoluntaryKarma_ge (s : GameState) : minKarma ≤ computeVoluntaryKarma s :=
  le_max_left _ _

theorem computeDeathKarma_ge (s : GameState) : minKarma ≤ computeDeathKarma s :=
  le_max_left _ _

/-- Helper: the state handed to `performDeathReincarnation` by the death
flow. -/
def markDying (s : GameState) : GameState :=
  { s with isDead := true, lifecycle := ⟨true⟩, timeSpeed := ⟨0, true⟩ }

theorem deathTransition_eq (s : GameState) :
    deathTransition s =
      if s.lifecycle.isReincarnating ∨ s.isDead then s
      else performDeathReincarnation (computeDeathKarma (markDying s)) (markDying s) := rfl

/-- Helper: karma never decreases across one transition. -/
theorem applyTransition_karma_le (t : TransitionKind) (s : GameState) :
    s.reinc.karma ≤ (applyTransition t s).reinc.karma := by
  have hmin : (0 : ℝ) < minKarma := by norm_num [minKarma]
  cases t with
  | viaReincarnate mode =>
    show s.reinc.karma ≤ (doReincarnate mode s).reinc.karma
    rw [doReincarnate_reinc]
    have h1 := computeVoluntaryKarma_ge s
    have h2 := computeDeathKarma_ge s
    cases mode <;> simp <;> linarith
  | viaDeath =>
    show s.reinc.karma ≤ (deathTransition s).reinc.karma
    rw [deathTransition_eq]
    split_ifs with h
    · exact le_refl _
    · rw [performDeathReincarnation_reinc]
      have h2 := computeDeathKarma_ge (markDying s)
      show s.reinc.karma ≤ (markDying s).reinc.karma + computeDeathKarma (markDying s)
      have : (markDying s).reinc.karma = s.reinc.karma := rfl
      linarith

/-- Claim C7: karma is monotonically non-decreasing — after any finite
sequence of transitions (voluntary, mandatory, or death) the karma is at
least its starting value, and each completed single transition adds a gain
of at least `minKarma > 0`.  (The non-negativity of `lifetimeQi` reflects
the sane reachable states: `Math.sqrt` of a negative produces NaN in
JavaScript, which the model does not represent.) -/
theorem karma_monotone (l : List TransitionKind) (s : GameState)
    (_h0 : 0 ≤ s.reinc.lifetimeQi) :
    s.reinc.karma ≤ (applyTransitionList l s).reinc.karma ∧
    (∀ (mode : RMode) (s' : GameState), 0 ≤ s'.reinc.lifetimeQi →
      s'.reinc.karma + minKarma ≤ (doReincarnate mode s').reinc.karma) ∧
    (∀ s' : GameState, 0 ≤ s'.reinc.lifetimeQi →
      s'.lifecycle.isReincarnating = false → s'.isDead = false →
      s'.reinc.karma + minKarma ≤ (deathTransition s').reinc.karma) ∧
    (0 : ℝ) < minKarma := by
  have hlist : ∀ (l' : List TransitionKind) (s₀ : GameState),
      s₀.reinc.karma ≤ (applyTransitionList l' s₀).reinc.karma := by
    intro l'
    induction l' with
    | nil => intro s₀; exact le_refl _
    | cons t ts ih =>
      intro s₀
      calc s₀.reinc.karma ≤ (applyTransition t s₀).reinc.karma :=
            applyTransition_karma_le t s₀
        _ ≤ (applyTransitionList ts (applyTransition t s₀)).reinc.karma :=
            ih (applyTransition t s₀)
        _ = (applyTransitionList (t :: ts) s₀).reinc.karma := rfl
  refine ⟨hlist l s, ?_, ?_, by norm_num [minKarma]⟩
  · intro mode s' _
    rw [doReincarnate_reinc]
    have h1 := computeVoluntaryKarma_ge s'
    have h2 := computeDeathKarma_ge s'
    cases mode <;> simp <;> linarith
  · intro s' _ hg hd
    rw [deathTransition_eq, if_neg (by simp [hg, hd]), performDeathReincarnation_reinc]
    have h2 := computeDeathKarma_ge (markDying s')
    show s'.reinc.karma + minKarma ≤
      (markDying s').reinc.karma + computeDeathKarma (markDying s')
    have : (markDying s').reinc.karma = s'.reinc.karma := rfl
    linarith

/-- Witness for C7: one voluntary reincarnation followed by one death,
starting from the default state. -/
theorem karma_monotone_witness :
    defaultState.reinc.karma ≤
      (applyTransitionList [TransitionKind.viaReincarnate RMode.voluntary,
        TransitionKind.viaDeath] defaultState).reinc.karma ∧
    (∀ (mode : RMode) (s' : GameState), 0 ≤ s'.reinc.lifetimeQi →
      s'.reinc.karma + minKarma ≤ (doReincarnate mode s').reinc.karma) ∧
    (∀ s' : GameState, 0 ≤ s'.reinc.lifetimeQi →
      s'.lifecycle.isReincarnating = false → s'.isDead = false →
      s'.reinc.karma + minKarma ≤ (deathTransition s').reinc.karma) ∧
    (0 : ℝ) < minKarma :=
  karma_monotone [TransitionKind.viaReincarnate RMode.voluntary, TransitionKind.viaDeath]
    defaultState (by norm_num [defaultState])

/-- The failing state for C5: a player with three recorded deaths. -/
def stateC5 : GameState := { defaultState with stats := ⟨3⟩, reinc := ⟨7, 5, 0⟩ }

/-- Claim C5, evaluated on the code: a voluntary (or mandatory)
reincarnation increments `reinc.times` but RESETS `stats.deaths` to 0
(losing the recorded 3 deaths), because `doReincarnate` restores `reinc`,
`flags` and `meta` after the hard reset but not `stats`; the death path
correctly increments `stats.deaths` and leaves `reinc.times` unchanged. -/
theorem transition_counter_eval :
    stateC5.stats.deaths = 3 ∧
    (doReincarnate RMode.voluntary stateC5).stats.deaths = 0 ∧
    (doReincarnate RMode.voluntary stateC5).reinc.times = stateC5.reinc.times + 1 ∧
    (doReincarnate RMode.mandatory stateC5).stats.deaths = 0 ∧
    (deathTransition stateC5).stats.deaths = stateC5.stats.deaths + 1 ∧
    (deathTransition stateC5).reinc.times = stateC5.reinc.times := by
  refine ⟨rfl, ?_, ?_, ?_, ?_, ?_⟩
  · rw [doReincarnate_deaths]; simp
  · rw [doReincarnate_reinc]
  · rw [doReincarnate_deaths]; simp
  · rw [deathTransition_eq, if_neg (by simp [stateC5, defaultState]),
      performDeathReincarnation_deaths]
    rfl
  · rw [deathTransition_eq, if_neg (by simp [stateC5, defaultState]),
      performDeathReincarnation_reinc]
    rfl

/-! ## Claim C10: the Spirit Transformation gate spends Qi without advancing -/

/-- Claim C10: at Spirit Transformation stage 10 (realmIndex 4) without the
`unlockedBeyondSpirit` flag and with enough Qi, `doBreakthrough` deducts
the full stage requirement from `qi` but changes nothing else: the realm
and stage stay at 4 / 10 (only the gate prompt is opened). -/
theorem doBreakthrough_gate_spends_qi (s : GameState)
    (h1 : s.realmIndex = 4) (h2 : s.stage = 10)
    (h3 : s.flags.unlockedBeyondSpirit = false)
    (h4 : ((stageRequirement s.realmIndex s.stage s.reinc.karma : ℤ) : ℝ) ≤ s.qi) :
    doBreakthrough s =
      { s with qi := s.qi - ((stageRequirement s.realmIndex s.stage s.reinc.karma : ℤ) : ℝ) } := by
  unfold doBreakthrough
  dsimp only
  split_ifs with ha hb hc <;>
    first
      | rfl
      | (exfalso; first
          | exact absurd h4 (by simpa using ha)
          | (simp only [h2] at hb; omega)
          | (refine hc ⟨?_, ?_⟩ <;> simpa))

/-- The witness state for C10: Spirit Transformation stage 10, no unlock
flag, 10^10 Qi at hand. -/
def stateC10 : GameState := { defaultState with realmIndex := 4, stage := 10, qi := 10 ^ (10 : ℕ) }

/-- Witness for C10. -/
theorem doBreakthrough_gate_witness :
    doBreakthrough stateC10 =
      { stateC10 with
        qi := stateC10.qi -
          ((stageRequirement stateC10.realmIndex stateC10.stage stateC10.reinc.karma : ℤ) : ℝ) } := by
  apply doBreakthrough_gate_spends_qi stateC10 rfl rfl rfl
  show ((stageRequirement 4 10 (0 : ℝ) : ℤ) : ℝ) ≤ (10 ^ (10 : ℕ) : ℝ)
  rw [stageRequirement_div, karmaStageMult_zero, div_one, Int.floor_intCast]
  have hle : balRealmBase * balRealmBaseScale ^ (4 : ℕ) * balStageScale ^ (10 - 1 : ℕ) ≤
      ((10 : ℝ) ^ (10 : ℕ)) := by
    unfold balRealmBase balRealmBaseScale balStageScale
    norm_num
  have := (Int.floor_le (balRealmBase * balRealmBaseScale ^ (4 : ℕ) *
    balStageScale ^ (10 - 1 : ℕ))).trans hle
  exact this

/-! ## Offline replay evaluation -/

set_option maxHeartbeats 1000000 in
/-- Helper: full evaluation of one offline replay over a gap of `N` whole
seconds (within the cap), at suspend speed `sess.lastSpeed`, with no
exhaustion: one lump Qi gain with the offline multiplier, one lump age
advance, session cleared. -/
theorem applyOffline_eval (s : GameState) (sess : Session) (N : ℕ) (mx : ℝ)
    (hsess : s.session = some sess) (hts : sess.lastTs ≠ 0) (hsp : 0 < sess.lastSpeed)
    (hN1 : 1 ≤ N) (hNcap : (N : ℤ) ≤ 43200)
    (hqi0 : 0 ≤ s.qi) (hqicap : s.qi ≤ (10 ^ (300 : ℕ) : ℝ))
    (hltq0 : 0 ≤ s.reinc.lifetimeQi)
    (hG0 : 0 ≤ totalQPS s * ((N : ℝ) * sess.lastSpeed) * totalOfflineMult s)
    (hGfin : s.reinc.lifetimeQi +
      totalQPS s * ((N : ℝ) * sess.lastSpeed) * totalOfflineMult s < jsMaxVal)
    (himm : ¬ isImmortal s) (hmax : s.lifespan.max = some mx)
    (hagefin : jsFinite s.age) (hage0 : 0 ≤ s.age)
    (hnoex : s.age + (N : ℝ) * sess.lastSpeed * yearsPerSecond < mx)
    (hmxfin : mx < jsMaxVal) :
    applyOfflineProgressOnResume (sess.lastTs + 1000 * N) s =
      { s with
        qi := min (s.qi + totalQPS s * ((N : ℝ) * sess.lastSpeed) * totalOfflineMult s)
          (10 ^ (300 : ℕ) : ℝ),
        reinc := { s.reinc with
          lifetimeQi := s.reinc.lifetimeQi +
            totalQPS s * ((N : ℝ) * sess.lastSpeed) * totalOfflineMult s },
        age := s.age + (N : ℝ) * sess.lastSpeed * yearsPerSecond,
        lifespan := { s.lifespan with
          current :=
            some (max 0 (mx - (s.age + (N : ℝ) * sess.lastSpeed * yearsPerSecond))) },
        session := none } := by
  have hyps0 : (0 : ℝ) < yearsPerSecond := by norm_num [yearsPerSecond]
  have hδ0 : 0 ≤ (N : ℝ) * sess.lastSpeed * yearsPerSecond := by
    have h1 : (0:ℝ) ≤ (N : ℝ) := Nat.cast_nonneg N
    have h2 := le_of_lt hsp
    positivity
  have hagenew : 0 ≤ s.age + (N : ℝ) * sess.lastSpeed * yearsPerSecond := by linarith
  have hagefin2 : jsFinite (s.age + (N : ℝ) * sess.lastSpeed * yearsPerSecond) := by
    rw [jsFinite_def, abs_lt]
    exact ⟨by linarith [jsMaxVal_pos], by linarith⟩
  have hfloor : (max 0 ⌊(sess.lastTs + 1000 * (N : ℝ) - sess.lastTs) / 1000⌋ : ℤ) = (N : ℤ) := by
    rw [show sess.lastTs + 1000 * (N : ℝ) - sess.lastTs = 1000 * (N : ℝ) by ring,
      show (1000 * (N : ℝ)) / 1000 = (N : ℝ) by ring, Int.floor_natCast]
    exact max_eq_right (Int.natCast_nonneg N)
  have ha : max 0 (min (s.age + (N : ℝ) * sess.lastSpeed * yearsPerSecond) mx) =
      s.age + (N : ℝ) * sess.lastSpeed * yearsPerSecond := by
    rw [min_eq_left (le_of_lt hnoex), max_eq_right hagenew]
  unfold applyOfflineProgressOnResume
  rw [hsess]
  dsimp only
  rw [if_neg hts, if_neg (not_le.mpr hsp), hfloor]
  unfold applyOfflineAfterElapsed
  dsimp only
  rw [if_neg (show ¬ ((N : ℤ) < 1) by omega),
    min_eq_left (show (N : ℤ) ≤ 12 * 3600 by omega)]
  rw [show (((N : ℤ) : ℝ)) = (N : ℝ) from Int.cast_natCast N]
  rcases eq_or_lt_of_le hG0 with hG | hG
  · -- qiGains = 0: the Qi branch is skipped
    rw [if_neg (show ¬ (0 < totalQPS s * ((N : ℝ) * sess.lastSpeed) * totalOfflineMult s) by
      rw [← hG]; exact lt_irrefl 0)]
    rw [if_pos hagefin, if_neg (show ¬ isImmortal s from himm), hmax]
    dsimp only
    rw [if_neg (not_not_intro hagefin2), ha, if_neg (not_le.mpr hnoex)]
    dsimp only
    rw [if_neg (show ¬ (false = true) by simp)]
    rw [← hG]
    rw [add_zero, add_zero, min_eq_left hqicap]
  · -- qiGains > 0
    have hfinG : jsFinite (totalQPS s * ((N : ℝ) * sess.lastSpeed) * totalOfflineMult s) := by
      rw [jsFinite_def, abs_lt]
      exact ⟨by linarith [jsMaxVal_pos], by linarith⟩
    have hfinSum : jsFinite (s.reinc.lifetimeQi +
        totalQPS s * ((N : ℝ) * sess.lastSpeed) * totalOfflineMult s) := by
      rw [jsFinite_def, abs_lt]
      exact ⟨by linarith [jsMaxVal_pos], by linarith⟩
    have hqimax : max 0 (min (s.qi + totalQPS s * ((N : ℝ) * sess.lastSpeed) *
        totalOfflineMult s) (10 ^ (300 : ℕ) : ℝ)) =
        min (s.qi + totalQPS s * ((N : ℝ) * sess.lastSpeed) * totalOfflineMult s)
          (10 ^ (300 : ℕ) : ℝ) := by
      apply max_eq_right
      apply le_min
      · linarith
      · positivity
    rw [if_pos hG, safeAddQi_pos s hfinG hG]
    dsimp only
    rw [safeNum_finite 0 hfinSum]
    rw [if_pos hagefin]
    rw [if_neg (show ¬ isImmortal ({ s with
      qi := max 0 (min (s.qi + totalQPS s * ((N : ℝ) * sess.lastSpeed) *
        totalOfflineMult s) (10 ^ (300 : ℕ) : ℝ)),
      reinc := { s.reinc with
        lifetimeQi := s.reinc.lifetimeQi +
          totalQPS s * ((N : ℝ) * sess.lastSpeed) * totalOfflineMult s } } : GameState)
      from himm)]
    rw [show ({ s with
      qi := max 0 (min (s.qi + totalQPS s * ((N : ℝ) * sess.lastSpeed) *
        totalOfflineMult s) (10 ^ (300 : ℕ) : ℝ)),
      reinc := { s.reinc with
        lifetimeQi := s.reinc.lifetimeQi +
          totalQPS s * ((N : ℝ) * sess.lastSpeed) * totalOfflineMult s } } :
        GameState).lifespan.max = some mx from hmax]
    dsimp only
    rw [if_neg (not_not_intro hagefin2), ha, if_neg (not_le.mpr hnoex)]
    dsimp only
    rw [if_neg (show ¬ (false = true) by simp)]
    rw [hqimax]

/-! ## Claim C1: the lifecycle guard -/

/-- Helper: `tick` is a no-op while the reincarnation guard is set. -/
theorem tick_guard_noop (dt : ℝ) (s : GameState)
    (h : s.lifecycle.isReincarnating = true) : tick dt s = s := by
  unfold tick
  dsimp only
  by_cases h1 : getTimeSpeed s = 0
  · rw [if_pos h1]
  · rw [if_neg h1, if_pos h]

/-- Helper: `onClick` is a no-op while the reincarnation guard is set. -/
theorem onClick_guard_noop (s : GameState)
    (h : s.lifecycle.isReincarnating = true) : onClick s = s := by
  unfold onClick
  dsimp only
  by_cases h1 : getTimeSpeed s = 0
  · rw [if_pos h1]
  · rw [if_neg h1, if_pos h]

/-- The failing state for C1: the reincarnation guard is set, and a
10-second-old session snapshot (speed 1) is present. -/
def stateC1 : GameState :=
  { defaultState with lifecycle := ⟨true⟩, session := some ⟨1000, 1⟩ }

/-- Claim C1, evaluated on the code: `tick` and `onClick` are no-ops while
`lifecycle.isReincarnating` is true, but `applyOfflineProgressOnResume`
never checks the guard: resumed at a guarded state with a 10-second-old
snapshot, it mutates RunState, advancing age from 0 to 0.1 years. -/
theorem offline_replay_ignores_guard :
    (∀ (dt : ℝ) (s : GameState), s.lifecycle.isReincarnating = true → tick dt s = s) ∧
    (∀ s : GameState, s.lifecycle.isReincarnating = true → onClick s = s) ∧
    stateC1.lifecycle.isReincarnating = true ∧
    stateC1.age = 0 ∧
    (applyOfflineProgressOnResume 11000 stateC1).age = 1 / 10 := by
  refine ⟨tick_guard_noop, onClick_guard_noop, rfl, rfl, ?_⟩
  have hQPS : totalQPS stateC1 = 0 := by
    unfold totalQPS stateC1 defaultState
    norm_num
  have h100 : (100 : ℝ) < jsMaxVal :=
    lt_trans (by norm_num : (100 : ℝ) < 10 ^ (301 : ℕ)) big_lt_jsMaxVal
  have hage : stateC1.age = 0 := rfl
  have hqi : stateC1.qi = 0 := rfl
  have hltq : stateC1.reinc.lifetimeQi = 0 := rfl
  have heval := applyOffline_eval stateC1 ⟨1000, 1⟩ 10 100
    rfl (by norm_num) (by norm_num) (by norm_num) (by norm_num)
    (by rw [hqi]) (by rw [hqi]; positivity)
    (by rw [hltq])
    (by rw [hQPS]; norm_num)
    (by rw [hQPS, hltq]; norm_num; exact jsMaxVal_pos)
    (by
      unfold isImmortal getMaxLifespan stateC1 defaultState realmMaxLifespan
      simp)
    rfl
    (by rw [jsFinite_def, hage]; simpa using jsMaxVal_pos)
    (by rw [hage])
    (by rw [hage]; norm_num [yearsPerSecond])
    h100
  have h11 : (11000 : ℝ) = (⟨1000, 1⟩ : Session).lastTs + 1000 * (10 : ℕ) := by
    show (11000 : ℝ) = 1000 + 1000 * (10 : ℕ)
    norm_num
  rw [h11, heval]
  show stateC1.age + (10 : ℕ) * (1 : ℝ) * yearsPerSecond = 1 / 10
  rw [hage]
  norm_num [yearsPerSecond]

/-! ## Claim C9: the offline replay cap -/

/-- Helper: `applyOfflineAfterElapsed` only sees the elapsed seconds
through `min elapsed 43200`. -/
theorem applyOfflineAfterElapsed_cap (E : ℤ) (hE : 43200 ≤ E)
    (sess : Session) (s : GameState) :
    applyOfflineAfterElapsed E sess s = applyOfflineAfterElapsed 43200 sess s := by
  unfold applyOfflineAfterElapsed
  rw [if_neg (show ¬ (E < 1) by omega), if_neg (show ¬ ((43200 : ℤ) < 1) by norm_num),
    show min E (12 * 3600) = 43200 by omega,
    show min (43200 : ℤ) (12 * 3600) = 43200 by norm_num]

/-- Claim C9: replaying a wall-clock gap strictly larger than
`offlineCapHours * 3600` seconds produces exactly the same state as
replaying a gap of exactly the cap (43 200 000 ms), for every state and
snapshot. -/
theorem offline_replay_cap (s : GameState) (sess : Session) (g : ℝ)
    (hsess : s.session = some sess) (hg : 43200000 < g) :
    applyOfflineProgressOnResume (sess.lastTs + g) s =
      applyOfflineProgressOnResume (sess.lastTs + 43200000) s := by
  unfold applyOfflineProgressOnResume
  rw [hsess]
  dsimp only
  by_cases h0 : sess.lastTs = 0
  · rw [if_pos h0, if_pos h0]
  rw [if_neg h0, if_neg h0]
  by_cases h1 : sess.lastSpeed ≤ 0
  · rw [if_pos h1, if_pos h1]
  rw [if_neg h1, if_neg h1]
  rw [show sess.lastTs + g - sess.lastTs = g by ring,
    show sess.lastTs + 43200000 - sess.lastTs = (43200000 : ℝ) by ring]
  have f2 : (⌊(43200000 : ℝ) / 1000⌋ : ℤ) = 43200 := by
    rw [show (43200000 : ℝ) / 1000 = ((43200 : ℤ) : ℝ) by norm_num, Int.floor_intCast]
  have f1 : (43200 : ℤ) ≤ ⌊g / 1000⌋ := by
    apply Int.le_floor.mpr
    push_cast
    linarith
  rw [f2, max_eq_right (by linarith : (0 : ℤ) ≤ ⌊g / 1000⌋),
    max_eq_right (by norm_num : (0 : ℤ) ≤ 43200)]
  exact applyOfflineAfterElapsed_cap _ (by omega) sess s

/-- The witness state for C9: a snapshot taken at speed 1. -/
def stateC9 : GameState := { defaultState with session := some ⟨1000, 1⟩ }

/-- Witness for C9: a 24-hour gap replays identically to the 12-hour cap. -/
theorem offline_replay_cap_witness :
    applyOfflineProgressOnResume ((1000 : ℝ) + 86400000) stateC9 =
      applyOfflineProgressOnResume ((1000 : ℝ) + 43200000) stateC9 :=
  offline_replay_cap stateC9 ⟨1000, 1⟩ 86400000 rfl (by norm_num)

/-! ## Claim C8: the aging engine -/

/-- Helper: the synchronous death handler never changes age. -/
theorem handleLifespanEnd_age (s : GameState) : (handleLifespanEnd s).age = s.age := by
  unfold handleLifespanEnd
  split_ifs <;> rfl

/-- Helper: `tickLifespan` is the identity when paused, dead, immortal,
transitioning, or at non-positive speed or elapsed time. -/
theorem tickLifespan_noop (s : GameState) (dt : ℝ)
    (h : s.timeSpeed.paused = true ∨ s.isDead = true ∨ s.timeSpeed.current ≤ 0 ∨
      s.lifecycle.isReincarnating = true ∨ isImmortal s ∨ dt ≤ 0) :
    tickLifespan dt s = s := by
  unfold tickLifespan
  dsimp only
  by_cases h1 : s.timeSpeed.paused = true ∨ s.isDead = true
  · rw [if_pos h1]
  rw [if_neg h1]
  by_cases h2 : isImmortal s
  · rw [if_pos h2]
  rw [if_neg h2]
  by_cases h3 : s.lifecycle.isReincarnating = true
  · rw [if_pos h3]
  rw [if_neg h3]
  by_cases h4 : s.timeSpeed.current ≤ 0
  · rw [if_pos h4]
  rw [if_neg h4]
  have hdt : dt ≤ 0 := by tauto
  rw [if_pos (show max 0 dt = 0 from max_eq_left hdt)]

/-- Helper: the age produced by an unguarded, finite aging step is the
clamped `age + max(0, dt) * speed * yearsPerSecond`. -/
theorem tickLifespan_age_main (s : GameState) (dt σ M : ℝ)
    (hM : getMaxLifespan s.realmIndex s.reinc.karma = some M)
    (hp : s.timeSpeed.paused = false) (hd : s.isDead = false)
    (hg : s.lifecycle.isReincarnating = false)
    (hσc : s.timeSpeed.current = σ) (hσ : 0 < σ) (hdt : 0 < dt)
    (hagefin : jsFinite s.age)
    (hfin2 : jsFinite (s.age + max 0 dt * σ * yearsPerSecond)) :
    (tickLifespan dt s).age =
      max 0 (min (s.age + max 0 dt * σ * yearsPerSecond) M) := by
  unfold tickLifespan
  dsimp only
  rw [if_neg (show ¬ (s.timeSpeed.paused = true ∨ s.isDead = true) by simp [hp, hd]),
    if_neg (show ¬ isImmortal s by unfold isImmortal; rw [hM]; simp),
    if_neg (show ¬ (s.lifecycle.isReincarnating = true) by simp [hg]),
    if_neg (show ¬ (s.timeSpeed.current ≤ 0) by rw [hσc]; exact not_le.mpr hσ),
    if_neg (show ¬ (max 0 dt = 0) by
      rw [max_eq_right (le_of_lt hdt)]; exact ne_of_gt hdt),
    if_pos hagefin, hσc,
    if_neg (not_not_intro hfin2), hM]
  dsimp only
  cases hlm : s.lifespan.max with
  | none =>
    dsimp only
    split_ifs with hdeath
    · rw [handleLifespanEnd_age]
    · rfl
  | some mx =>
    dsimp only
    split_ifs with hdeath
    · rw [handleLifespanEnd_age]
    · rfl

/-- Helper: the age is kept unchanged when the new age would be
non-finite. -/
theorem tickLifespan_age_nonfinite (s : GameState) (dt σ : ℝ)
    (hp : s.timeSpeed.paused = false) (hd : s.isDead = false)
    (hg : s.lifecycle.isReincarnating = false)
    (hσc : s.timeSpeed.current = σ) (hσ : 0 < σ) (hdt : 0 < dt)
    (hagefin : jsFinite s.age)
    (hnf : ¬ jsFinite (s.age + max 0 dt * σ * yearsPerSecond)) :
    (tickLifespan dt s).age = s.age := by
  unfold tickLifespan
  dsimp only
  rw [if_neg (show ¬ (s.timeSpeed.paused = true ∨ s.isDead = true) by simp [hp, hd])]
  by_cases h2 : isImmortal s
  · rw [if_pos h2]
  rw [if_neg h2,
    if_neg (show ¬ (s.lifecycle.isReincarnating = true) by simp [hg]),
    if_neg (show ¬ (s.timeSpeed.current ≤ 0) by rw [hσc]; exact not_le.mpr hσ),
    if_neg (show ¬ (max 0 dt = 0) by
      rw [max_eq_right (le_of_lt hdt)]; exact ne_of_gt hdt),
    if_pos hagefin, hσc,
    if_pos hnf]

/-- Claim C8: aging-step safety.  With infinite lifespan, paused or
non-positive speed, or a transition in progress the age is unchanged (the
whole state is).  Otherwise, for a finite ceiling `M` (at non-negative
karma) and positive speed and elapsed time, the age delta applied is
`max(0, dt) * speed * yearsPerSecond`; if the prior age plus the delta is
non-finite the prior age is kept; otherwise the new age is the clamp of
`age + delta` into `[0, M]`. -/
theorem tickLifespan_aging (s : GameState) (dt : ℝ) :
    ((s.timeSpeed.paused = true ∨ s.timeSpeed.current ≤ 0 ∨
        s.lifecycle.isReincarnating = true ∨ isImmortal s) → tickLifespan dt s = s) ∧
    (∀ M σ : ℝ, getMaxLifespan s.realmIndex s.reinc.karma = some M →
      s.timeSpeed.paused = false → s.isDead = false →
      s.lifecycle.isReincarnating = false → s.timeSpeed.current = σ → 0 < σ → 0 < dt →
      jsFinite s.age → 0 ≤ s.reinc.karma →
      (¬ jsFinite (s.age + max 0 dt * σ * yearsPerSecond) →
        (tickLifespan dt s).age = s.age) ∧
      (jsFinite (s.age + max 0 dt * σ * yearsPerSecond) →
        (tickLifespan dt s).age = max 0 (min (s.age + max 0 dt * σ * yearsPerSecond) M) ∧
        0 ≤ (tickLifespan dt s).age ∧ (tickLifespan dt s).age ≤ M)) := by
  constructor
  · intro h
    exact tickLifespan_noop s dt (by tauto)
  · intro M σ hM hp hd hg hσc hσ hdt hagefin hk
    constructor
    · intro hnf
      exact tickLifespan_age_nonfinite s dt σ hp hd hg hσc hσ hdt hagefin hnf
    · intro hfin2
      have hmain := tickLifespan_age_main s dt σ M hM hp hd hg hσc hσ hdt hagefin hfin2
      have hM0 : (0 : ℝ) ≤ M := getMaxLifespan_nonneg hk hM
      refine ⟨hmain, ?_, ?_⟩
      · rw [hmain]; exact le_max_left 0 _
      · rw [hmain]
        rcases le_total (min (s.age + max 0 dt * σ * yearsPerSecond) M) 0 with h | h
        · rw [max_eq_left h]; exact hM0
        · rw [max_eq_right h]; exact min_le_right _ _

/-- Witness states for C8: an unpaused 50-year-old cultivator and a paused
one. -/
def stateC8 : GameState := { defaultState with age := 50 }

def stateC8paused : GameState := { defaultState with timeSpeed := ⟨1, true⟩ }

/-- Helper: the fresh-run lifespan ceiling at zero karma is 100 years. -/
theorem getMaxLifespan_zero : getMaxLifespan 0 0 = some 100 := by
  unfold getMaxLifespan realmMaxLifespan
  rw [karmaLifeMult_zero]
  norm_num

/-- Witness for C8: one 1-second step at speed 1 from age 50, and a paused
no-op. -/
theorem tickLifespan_aging_witness :
    tickLifespan 1 stateC8paused = stateC8paused ∧
    (tickLifespan 1 stateC8).age =
      max 0 (min (stateC8.age + max 0 1 * 1 * yearsPerSecond) 100) ∧
    0 ≤ (tickLifespan 1 stateC8).age ∧ (tickLifespan 1 stateC8).age ≤ 100 := by
  have h50 : stateC8.age = (50 : ℝ) := rfl
  refine ⟨(tickLifespan_aging stateC8paused 1).1 (Or.inl rfl), ?_⟩
  have h := ((tickLifespan_aging stateC8 1).2 100 1 getMaxLifespan_zero
    rfl rfl rfl rfl (by norm_num) (by norm_num)
    (by rw [h50]; exact jsFinite_of_bounds (by norm_num) (by norm_num))
    (le_refl 0)).2
  exact h (by
    rw [h50]
    exact jsFinite_of_bounds (by norm_num [yearsPerSecond]) (by norm_num [yearsPerSecond]))

/-! ## Claim C3: offline replay vs. live ticks -/

theorem bound750k_lt_jsMaxVal : (750000 : ℝ) < jsMaxVal :=
  lt_trans (by norm_num) big_lt_jsMaxVal

/-- Helper: the lifespan gate does not fire below the ceiling. -/
theorem checkLifespanGate_noop (s : GameState) (M : ℝ)
    (hM : getMaxLifespan s.realmIndex s.reinc.karma = some M) (hage : s.age < M) :
    checkLifespanGate s = s := by
  unfold checkLifespanGate
  rw [if_neg (show ¬ isImmortal s by unfold isImmortal; rw [hM]; simp)]
  by_cases h2 : s.flags.lifespanHandled = true ∨ s.lifecycle.isReincarnating = true
  · rw [if_pos h2]
  rw [if_neg h2, hM]
  dsimp only
  rw [if_neg (not_le.mpr hage)]

/-- Helper: the saturating Qi add, for finite non-negative gains on an
in-range Qi value, is a single clamped add. -/
theorem safeAddQi_clamp (x : ℝ) (s : GameState) (hfin : jsFinite x) (hx : 0 ≤ x)
    (hqi0 : 0 ≤ s.qi) (hcap : s.qi ≤ (10 ^ (300 : ℕ) : ℝ)) :
    safeAddQi x s = { s with qi := min (s.qi + x) (10 ^ (300 : ℕ) : ℝ) } := by
  rcases eq_or_lt_of_le hx with h | h
  · rw [safeAddQi_nonpos s (le_of_eq h.symm)]
    have hmin : min (s.qi + x) (10 ^ (300 : ℕ) : ℝ) = s.qi := by
      rw [← h, add_zero]
      exact min_eq_left hcap
    rw [hmin]
  · rw [safeAddQi_pos s hfin h]
    have hmax : max 0 (min (s.qi + x) (10 ^ (300 : ℕ) : ℝ)) =
        min (s.qi + x) (10 ^ (300 : ℕ) : ℝ) := by
      apply max_eq_right
      apply le_min
      · linarith
      · positivity
    rw [hmax]

/-- Helper: one unguarded, non-exhausting aging step, as a full state
update. -/
theorem tickLifespan_step (s : GameState) (dt σ M mx : ℝ)
    (hM : getMaxLifespan s.realmIndex s.reinc.karma = some M)
    (hmx : s.lifespan.max = some mx)
    (hp : s.timeSpeed.paused = false) (hd : s.isDead = false)
    (hg : s.lifecycle.isReincarnating = false)
    (hσc : s.timeSpeed.current = σ) (hσ : 0 < σ) (hdt : 0 < dt)
    (hagefin : jsFinite s.age) (hage0 : 0 ≤ s.age)
    (hlt : s.age + max 0 dt * σ * yearsPerSecond < M)
    (hfin2 : jsFinite (s.age + max 0 dt * σ * yearsPerSecond)) :
    tickLifespan dt s = { s with
      age := s.age + max 0 dt * σ * yearsPerSecond,
      lifespan := { s.lifespan with
        current := some (max 0 (mx - (s.age + max 0 dt * σ * yearsPerSecond))) } } := by
  have hδ0 : 0 ≤ max 0 dt * σ * yearsPerSecond := by
    have h1 : (0 : ℝ) ≤ max 0 dt := le_max_left 0 dt
    have h2 : (0 : ℝ) < yearsPerSecond := by norm_num [yearsPerSecond]
    positivity
  have ha : max 0 (min (s.age + max 0 dt * σ * yearsPerSecond) M) =
      s.age + max 0 dt * σ * yearsPerSecond := by
    rw [min_eq_left (le_of_lt hlt), max_eq_right (by linarith)]
  unfold tickLifespan
  dsimp only
  rw [if_neg (show ¬ (s.timeSpeed.paused = true ∨ s.isDead = true) by simp [hp, hd]),
    if_neg (show ¬ isImmortal s by unfold isImmortal; rw [hM]; simp),
    if_neg (show ¬ (s.lifecycle.isReincarnating = true) by simp [hg]),
    if_neg (show ¬ (s.timeSpeed.current ≤ 0) by rw [hσc]; exact not_le.mpr hσ),
    if_neg (show ¬ (max 0 dt = 0) by
      rw [max_eq_right (le_of_lt hdt)]; exact ne_of_gt hdt),
    if_pos hagefin, hσc,
    if_neg (not_not_intro hfin2), hM]
  dsimp only
  rw [ha, hmx]
  dsimp only
  rw [if_neg (show ¬ (M ≤ s.age + max 0 dt * σ * yearsPerSecond ∧
      s.flags.lifespanHandled = false) by
    rintro ⟨h1, -⟩
    exact absurd h1 (not_le.mpr hlt))]

/-- Helper: aging step followed by the gate check, for an unguarded,
non-exhausting state (argument order chosen for partial application). -/
theorem tickLifespan_gate (σ M mx : ℝ) (s : GameState)
    (hM : getMaxLifespan s.realmIndex s.reinc.karma = some M)
    (hmx : s.lifespan.max = some mx)
    (hp : s.timeSpeed.paused = false) (hd : s.isDead = false)
    (hg : s.lifecycle.isReincarnating = false)
    (hσc : s.timeSpeed.current = σ) (hσ : 0 < σ)
    (hagefin : jsFinite s.age) (hage0 : 0 ≤ s.age)
    (hlt : s.age + σ * yearsPerSecond < M)
    (hfin2 : jsFinite (s.age + σ * yearsPerSecond)) :
    checkLifespanGate (tickLifespan 1 s) = { s with
      age := s.age + σ * yearsPerSecond,
      lifespan := { s.lifespan with
        current := some (max 0 (mx - (s.age + σ * yearsPerSecond))) } } := by
  have hone : max (0:ℝ) 1 * σ * yearsPerSecond = σ * yearsPerSecond := by
    rw [max_eq_right zero_le_one, one_mul]
  rw [tickLifespan_step s 1 σ M mx hM hmx hp hd hg hσc hσ (by norm_num) hagefin hage0
    (by rw [hone]; exact hlt) (by rw [hone]; exact hfin2), hone]
  exact checkLifespanGate_noop { s with
      age := s.age + σ * yearsPerSecond,
      lifespan := { s.lifespan with
        current := some (max 0 (mx - (s.age + σ * yearsPerSecond))) } } M hM hlt

/-- Helper: one full live tick of one second, on an unguarded,
non-exhausting, in-range state, with gain `g = totalQPS * speed`. -/
theorem tick_one (σ M mx g : ℝ) (s : GameState)
    (hgval : totalQPS s * σ = g)
    (hp : s.timeSpeed.paused = false) (hd : s.isDead = false)
    (hguard : s.lifecycle.isReincarnating = false)
    (hσc : s.timeSpeed.current = σ) (hσ : 0 < σ)
    (hM : getMaxLifespan s.realmIndex s.reinc.karma = some M)
    (hmx : s.lifespan.max = some mx)
    (hqi0 : 0 ≤ s.qi) (hqicap : s.qi ≤ (10 ^ (300 : ℕ) : ℝ))
    (hltq0 : 0 ≤ s.reinc.lifetimeQi)
    (hg0 : 0 ≤ g)
    (hsumfin : s.reinc.lifetimeQi + g < jsMaxVal)
    (hagefin : jsFinite s.age) (hage0 : 0 ≤ s.age)
    (hlt : s.age + σ * yearsPerSecond < M)
    (hMfin : M < jsMaxVal) :
    tick 1 s = { s with
      qi := min (s.qi + g) (10 ^ (300 : ℕ) : ℝ),
      reinc := { s.reinc with lifetimeQi := s.reinc.lifetimeQi + g },
      age := s.age + σ * yearsPerSecond,
      lifespan := { s.lifespan with
        current := some (max 0 (mx - (s.age + σ * yearsPerSecond))) } } := by
  subst hgval
  have hy : (0 : ℝ) < yearsPerSecond := by norm_num [yearsPerSecond]
  have hδ0 : 0 ≤ σ * yearsPerSecond := by positivity
  have hgfin : jsFinite (totalQPS s * σ) := by
    rw [jsFinite_def, abs_lt]
    exact ⟨by linarith [jsMaxVal_pos], by linarith⟩
  have hsumfin2 : jsFinite (s.reinc.lifetimeQi + totalQPS s * σ) := by
    rw [jsFinite_def, abs_lt]
    exact ⟨by linarith [jsMaxVal_pos], by linarith⟩
  have hfin2 : jsFinite (s.age + σ * yearsPerSecond) := by
    rw [jsFinite_def, abs_lt]
    exact ⟨by linarith [jsMaxVal_pos], by linarith⟩
  have hgts : getTimeSpeed s = σ := by
    unfold getTimeSpeed
    rw [hp]
    simp [hσc]
  unfold tick
  dsimp only
  rw [hgts, if_neg (ne_of_gt hσ),
    if_neg (show ¬ (s.lifecycle.isReincarnating = true) by simp [hguard]),
    show (1 : ℝ) * σ = σ by ring,
    safeAddQi_clamp (totalQPS s * σ) s hgfin hg0 hqi0 hqicap]
  dsimp only
  rw [safeNum_finite 0 hsumfin2]
  rw [tickLifespan_gate σ M mx]
  · exact hM
  · exact hmx
  · exact hp
  · exact hd
  · exact hguard
  · exact hσc
  · exact hσ
  · exact hagefin
  · exact hage0
  · exact hlt
  · exact hfin2

/-- Helper: clamped adds compose. -/
theorem min_clamp_add (a C g : ℝ) (hg : 0 ≤ g) :
    min (min a C + g) C = min (a + g) C := by
  rcases le_total a C with h | h
  · rw [min_eq_left h]
  · rw [min_eq_right h, min_eq_right (show C ≤ C + g by linarith),
      min_eq_right (show C ≤ a + g by linarith)]

/-- Helper: `N` sequential one-second live ticks, in closed form. -/
theorem ticks_eval (N : ℕ) :
    ∀ (s : GameState) (σ M mx : ℝ),
    s.timeSpeed.paused = false → s.isDead = false →
    s.lifecycle.isReincarnating = false →
    s.timeSpeed.current = σ → 0 < σ →
    getMaxLifespan s.realmIndex s.reinc.karma = some M →
    s.lifespan.max = some mx →
    0 ≤ s.qi → s.qi ≤ (10 ^ (300 : ℕ) : ℝ) →
    0 ≤ s.reinc.lifetimeQi →
    0 ≤ totalQPS s →
    s.reinc.lifetimeQi + N * (totalQPS s * σ) < jsMaxVal →
    jsFinite s.age → 0 ≤ s.age →
    s.age + N * (σ * yearsPerSecond) < M →
    1 ≤ N →
    (tick 1)^[N] s = { s with
      qi := min (s.qi + N * (totalQPS s * σ)) (10 ^ (300 : ℕ) : ℝ),
      reinc := { s.reinc with
        lifetimeQi := s.reinc.lifetimeQi + N * (totalQPS s * σ) },
      age := s.age + N * (σ * yearsPerSecond),
      lifespan := { s.lifespan with
        current := some (max 0 (mx - (s.age + N * (σ * yearsPerSecond)))) } } := by
  induction N with
  | zero =>
    intro s σ M mx _ _ _ _ _ _ _ _ _ _ _ _ _ _ _ hN1
    exact absurd hN1 (by norm_num)
  | succ n ih =>
    intro s σ M mx hp hd hg hσc hσ hM hmx hqi0 hqicap hltq0 hQPS0 hsumfin hagefin hage0
      hlt hN1
    have hy : (0 : ℝ) < yearsPerSecond := by norm_num [yearsPerSecond]
    have hδ0 : 0 ≤ σ * yearsPerSecond := by positivity
    have hg0 : 0 ≤ totalQPS s * σ := mul_nonneg hQPS0 (le_of_lt hσ)
    have hMfin : M < jsMaxVal :=
      lt_of_le_of_lt (getMaxLifespan_le hM) bound750k_lt_jsMaxVal
    have hn0 : (0:ℝ) ≤ (n : ℝ) := Nat.cast_nonneg n
    have hcast1 : ((n + 1 : ℕ) : ℝ) = (n : ℝ) + 1 := by push_cast; ring
    rcases Nat.eq_zero_or_pos n with hn | hn
    · subst hn
      rw [Function.iterate_one]
      rw [tick_one σ M mx (totalQPS s * σ) s rfl hp hd hg hσc hσ hM hmx hqi0 hqicap hltq0
        hg0 (by norm_num at hsumfin; exact hsumfin) hagefin hage0
        (by norm_num at hlt; exact hlt) hMfin]
      have e1 : s.qi + totalQPS s * σ = s.qi + ((0 + 1 : ℕ) : ℝ) * (totalQPS s * σ) := by
        push_cast
        ring
      have e2 : s.reinc.lifetimeQi + totalQPS s * σ =
          s.reinc.lifetimeQi + ((0 + 1 : ℕ) : ℝ) * (totalQPS s * σ) := by
        push_cast
        ring
      have e3 : s.age + σ * yearsPerSecond =
          s.age + ((0 + 1 : ℕ) : ℝ) * (σ * yearsPerSecond) := by
        push_cast
        ring
      rw [e1, e2, e3]
    · -- n ≥ 1: use the induction hypothesis
      have hsumfin_n : s.reinc.lifetimeQi + n * (totalQPS s * σ) < jsMaxVal := by
        rw [hcast1] at hsumfin
        nlinarith
      have hlt_n : s.age + n * (σ * yearsPerSecond) < M := by
        rw [hcast1] at hlt
        nlinarith
      rw [Function.iterate_succ_apply',
        ih s σ M mx hp hd hg hσc hσ hM hmx hqi0 hqicap hltq0 hQPS0 hsumfin_n hagefin
          hage0 hlt_n hn]
      have hqiN0 : (0:ℝ) ≤ min (s.qi + n * (totalQPS s * σ)) (10 ^ (300 : ℕ) : ℝ) := by
        apply le_min
        · nlinarith
        · positivity
      rw [tick_one σ M mx (totalQPS s * σ)]
      · -- assemble the (n+1)-step closed form
        dsimp only
        have e1 : min (min (s.qi + n * (totalQPS s * σ)) (10 ^ (300 : ℕ) : ℝ) +
            totalQPS s * σ) (10 ^ (300 : ℕ) : ℝ) =
            min (s.qi + ((n + 1 : ℕ) : ℝ) * (totalQPS s * σ)) (10 ^ (300 : ℕ) : ℝ) := by
          rw [min_clamp_add _ _ _ hg0]
          congr 1
          push_cast
          ring
        have e2 : s.reinc.lifetimeQi + n * (totalQPS s * σ) + totalQPS s * σ =
            s.reinc.lifetimeQi + ((n + 1 : ℕ) : ℝ) * (totalQPS s * σ) := by
          push_cast
          ring
        have e3 : s.age + n * (σ * yearsPerSecond) + σ * yearsPerSecond =
            s.age + ((n + 1 : ℕ) : ℝ) * (σ * yearsPerSecond) := by
          push_cast
          ring
        rw [e1, e2, e3]
      · rfl
      · exact hp
      · exact hd
      · exact hg
      · exact hσc
      · exact hσ
      · exact hM
      · exact hmx
      · exact hqiN0
      · exact min_le_right _ _
      · show (0:ℝ) ≤ s.reinc.lifetimeQi + n * (totalQPS s * σ)
        nlinarith
      · exact hg0
      · show s.reinc.lifetimeQi + n * (totalQPS s * σ) + totalQPS s * σ < jsMaxVal
        rw [hcast1] at hsumfin
        nlinarith
      · show jsFinite (s.age + n * (σ * yearsPerSecond))
        apply jsFinite_of_bounds
        · nlinarith
        · nlinarith [getMaxLifespan_le hM]
      · show (0:ℝ) ≤ s.age + n * (σ * yearsPerSecond)
        nlinarith
      · show s.age + n * (σ * yearsPerSecond) + σ * yearsPerSecond < M
        rw [hcast1] at hlt
        nlinarith
      · exact hMfin

/-- Claim C3, amended: replaying an offline gap of `N` whole seconds at a
fixed speed equals `N` sequential 1-second live ticks — but only when the
offline multiplier `totalOfflineMult` is `1` (no closed-door-cultivation
levels).  The offline path multiplies its Qi gain by `totalOfflineMult`,
which the live tick path never applies, so in general the two differ by
exactly that factor on Qi and lifetimeQi (age agrees on both paths). -/
theorem offline_replay_equals_ticks (σ M mx : ℝ) (N : ℕ) (sess : Session) (s : GameState)
    (hsess : s.session = some sess) (hts : sess.lastTs ≠ 0)
    (hspeed : sess.lastSpeed = σ) (hσc : s.timeSpeed.current = σ) (hσ : 0 < σ)
    (hp : s.timeSpeed.paused = false) (hd : s.isDead = false)
    (hg : s.lifecycle.isReincarnating = false)
    (hmult : totalOfflineMult s = 1)
    (hN1 : 1 ≤ N) (hNcap : (N : ℤ) ≤ 43200)
    (hqi0 : 0 ≤ s.qi) (hqicap : s.qi ≤ (10 ^ (300 : ℕ) : ℝ))
    (hltq0 : 0 ≤ s.reinc.lifetimeQi) (hQPS0 : 0 ≤ totalQPS s)
    (hsumfin : s.reinc.lifetimeQi + N * (totalQPS s * σ) < jsMaxVal)
    (himm : ¬ isImmortal s)
    (hM : getMaxLifespan s.realmIndex s.reinc.karma = some M)
    (hmx : s.lifespan.max = some mx)
    (hagefin : jsFinite s.age) (hage0 : 0 ≤ s.age)
    (hltM : s.age + N * (σ * yearsPerSecond) < M)
    (hltmx : s.age + N * (σ * yearsPerSecond) < mx)
    (hmxfin : mx < jsMaxVal) :
    applyOfflineProgressOnResume (sess.lastTs + 1000 * N) s =
      { (tick 1)^[N] s with session := none } := by
  rw [ticks_eval N s σ M mx hp hd hg hσc hσ hM hmx hqi0 hqicap hltq0 hQPS0 hsumfin
    hagefin hage0 hltM hN1]
  rw [applyOffline_eval s sess N mx hsess hts (by rw [hspeed]; exact hσ) hN1 hNcap hqi0
    hqicap hltq0
    (by
      rw [hspeed, hmult, mul_one]
      exact mul_nonneg hQPS0 (mul_nonneg (Nat.cast_nonneg N) (le_of_lt hσ)))
    (by
      rw [hspeed, hmult, mul_one,
        show totalQPS s * ((N : ℝ) * σ) = (N : ℝ) * (totalQPS s * σ) from by ring]
      exact hsumfin)
    himm hmx hagefin hage0
    (by
      rw [hspeed,
        show (N : ℝ) * σ * yearsPerSecond = (N : ℝ) * (σ * yearsPerSecond) from by ring]
      exact hltmx)
    hmxfin]
  have eg : totalQPS s * ((N : ℝ) * sess.lastSpeed) * totalOfflineMult s =
      (N : ℝ) * (totalQPS s * σ) := by
    rw [hspeed, hmult]
    ring
  have ea : (N : ℝ) * sess.lastSpeed * yearsPerSecond =
      (N : ℝ) * (σ * yearsPerSecond) := by
    rw [hspeed]
    ring
  rw [eg, ea]

/-- A state with one closed-door-cultivation level (offline multiplier 1.2)
and 1 Qi/s of production, whose snapshot was taken at speed 1. -/
def stateC3 : GameState :=
  { defaultState with qpsBase := 1, skills := ⟨0, 0, 0, 0, 1⟩, session := some ⟨1000, 1⟩ }

/-- Counterexample to the claim as stated: with a closed-door-cultivation
level, replaying a 2-second offline gap at speed 1 yields 2 × 1.2 = 2.4 Qi,
while two live 1-second ticks yield 2 Qi — the offline path is not
equivalent to the live path, it overshoots by the offline multiplier. -/
theorem offline_replay_equals_ticks_counterexample :
    (applyOfflineProgressOnResume ((1000 : ℝ) + 1000 * (2 : ℕ)) stateC3).qi ≠
      ((tick 1)^[2] stateC3).qi ∧
    (applyOfflineProgressOnResume ((1000 : ℝ) + 1000 * (2 : ℕ)) stateC3).qi = 12 / 5 ∧
    ((tick 1)^[2] stateC3).qi = 2 := by
  have hQ : totalQPS stateC3 = 1 := by
    unfold totalQPS stateC3 defaultState
    norm_num [karmaQiMult, cyclePowerMult]
  have hOM : totalOfflineMult stateC3 = 6 / 5 := by
    unfold totalOfflineMult stateC3 defaultState
    norm_num
  have hqi : stateC3.qi = 0 := rfl
  have hltq : stateC3.reinc.lifetimeQi = 0 := rfl
  have hage : stateC3.age = 0 := rfl
  have h100 : (100 : ℝ) < jsMaxVal :=
    lt_trans (by norm_num : (100 : ℝ) < 10 ^ (301 : ℕ)) big_lt_jsMaxVal
  have hoff : (applyOfflineProgressOnResume ((1000 : ℝ) + 1000 * (2 : ℕ)) stateC3).qi =
      12 / 5 := by
    have heval := applyOffline_eval stateC3 ⟨1000, 1⟩ 2 100
      rfl (by norm_num) (by norm_num) (by norm_num) (by norm_num)
      (by rw [hqi]) (by rw [hqi]; positivity)
      (by rw [hltq])
      (by rw [hQ, hOM]; norm_num)
      (by
        rw [hltq, hQ, hOM]
        refine lt_trans ?_ big_lt_jsMaxVal
        norm_num)
      (by
        unfold isImmortal getMaxLifespan stateC3 defaultState realmMaxLifespan
        simp)
      rfl
      (by rw [jsFinite_def, hage]; simpa using jsMaxVal_pos)
      (by rw [hage])
      (by rw [hage]; norm_num [yearsPerSecond])
      h100
    rw [show ((1000 : ℝ) + 1000 * (2 : ℕ)) =
      (⟨1000, 1⟩ : Session).lastTs + 1000 * (2 : ℕ) from rfl, heval]
    show min (stateC3.qi + totalQPS stateC3 * (((2 : ℕ) : ℝ) * 1) * totalOfflineMult stateC3)
      (10 ^ (300 : ℕ) : ℝ) = 12 / 5
    rw [hqi, hQ, hOM, show (0 : ℝ) + 1 * (((2 : ℕ) : ℝ) * 1) * (6 / 5) = 12 / 5 by
      push_cast; ring]
    exact min_eq_left (by norm_num)
  have hlive : ((tick 1)^[2] stateC3).qi = 2 := by
    rw [ticks_eval 2 stateC3 1 100 100 rfl rfl rfl rfl (by norm_num)
      getMaxLifespan_zero rfl
      (by rw [hqi]) (by rw [hqi]; positivity)
      (by rw [hltq])
      (by rw [hQ]; norm_num)
      (by
        rw [hltq, hQ]
        refine lt_trans ?_ big_lt_jsMaxVal
        norm_num)
      (by rw [jsFinite_def, hage]; simpa using jsMaxVal_pos)
      (by rw [hage])
      (by rw [hage]; norm_num [yearsPerSecond])
      (by norm_num)]
    show min (stateC3.qi + ((2 : ℕ) : ℝ) * (totalQPS stateC3 * 1)) (10 ^ (300 : ℕ) : ℝ) = 2
    rw [hqi, hQ, show (0 : ℝ) + ((2 : ℕ) : ℝ) * (1 * 1) = 2 by push_cast; ring]
    exact min_eq_left (by norm_num)
  exact ⟨by rw [hoff, hlive]; norm_num, hoff, hlive⟩

/-- A state like `stateC3` but with no closed-door-cultivation levels, so
the offline multiplier is 1. -/
def stateC3w : GameState :=
  { defaultState with qpsBase := 1, session := some ⟨1000, 1⟩ }

/-- Witness for the amended C3: with no closed-door levels, a 2-second
offline replay at speed 1 equals two live 1-second ticks exactly (up to the
consumed session snapshot). -/
theorem offline_replay_equals_ticks_witness :
    applyOfflineProgressOnResume ((⟨1000, 1⟩ : Session).lastTs + 1000 * (2 : ℕ)) stateC3w =
      { (tick 1)^[2] stateC3w with session := none } := by
  have hQ : totalQPS stateC3w = 1 := by
    unfold totalQPS stateC3w defaultState
    norm_num [karmaQiMult, cyclePowerMult]
  exact offline_replay_equals_ticks 1 100 100 2 ⟨1000, 1⟩ stateC3w
    rfl (by norm_num) rfl rfl (by norm_num) rfl rfl rfl
    (by unfold totalOfflineMult stateC3w defaultState; norm_num)
    (by norm_num) (by norm_num)
    (by rw [show stateC3w.qi = 0 from rfl]) (by rw [show stateC3w.qi = 0 from rfl]; positivity)
    (by rw [show stateC3w.reinc.lifetimeQi = 0 from rfl])
    (by rw [hQ]; norm_num)
    (by
      rw [show stateC3w.reinc.lifetimeQi = 0 from rfl, hQ]
      refine lt_trans ?_ big_lt_jsMaxVal
      norm_num)
    (by
      unfold isImmortal getMaxLifespan stateC3w defaultState realmMaxLifespan
      simp)
    getMaxLifespan_zero rfl
    (by rw [jsFinite_def, show stateC3w.age = 0 from rfl]; simpa using jsMaxVal_pos)
    (by rw [show stateC3w.age = 0 from rfl])
    (by rw [show stateC3w.age = 0 from rfl]; norm_num [yearsPerSecond])
    (by rw [show stateC3w.age = 0 from rfl]; norm_num [yearsPerSecond])
    (lt_trans (by norm_num : (100 : ℝ) < 10 ^ (301 : ℕ)) big_lt_jsMaxVal)

end

end Xianxia
